import Mathlib

/-!
Verification of the Mergington High School activity registry
(`src/app.py`): an in-memory mapping from activity name to an activity
record, with three operations — list activities, sign up a participant,
unregister a participant.  The registry is modelled as an association
list (Python dicts preserve insertion order and have unique keys), and
each FastAPI handler becomes a pure function from the registry state and
its arguments to the updated state together with its response.
-/

set_option autoImplicit false

namespace Mergington

/-- One activity record, mirroring the dict values in `activities`. -/
structure ActivityRecord where
  description : String
  schedule : String
  max_participants : Nat
  participants : List String
deriving DecidableEq, Repr

/-- The registry: an insertion-ordered mapping from activity name to
its record, as Python's `dict` keeps it. -/
abbrev Registry : Type := List (String × ActivityRecord)

/-- `name in activities` / `activities[name]`: first entry whose key
matches, if any. -/
def Registry.lookup : Registry → String → Option ActivityRecord
  | [], _ => none
  | (k, v) :: t, name => if k = name then some v else Registry.lookup t name

/-- `activities[name] = record`: replace the (unique, hence first)
entry whose key matches. -/
def Registry.update : Registry → String → ActivityRecord → Registry
  | [], _, _ => []
  | (k, v) :: t, name, record =>
      if k = name then (k, record) :: t
      else (k, v) :: Registry.update t name record

/-- Python's `list.remove(x)`: delete the first occurrence of `x`. -/
def removeFirst : List String → String → List String
  | [], _ => []
  | x :: t, e => if x = e then t else x :: removeFirst t e

/-- An `HTTPException(status_code, detail)` as raised by the handlers. -/
structure HTTPError where
  status_code : Nat
  detail : String
deriving DecidableEq, Repr

deriving instance DecidableEq for Except

/-- A handler outcome: either a success message or an `HTTPException`. -/
abbrev Response : Type := Except HTTPError String

/-- The seed state of `activities` built at module load. -/
def activities : Registry :=
  [ ("Soccer Team",
     { description := "Join our varsity soccer team and compete in regional tournaments"
       schedule := "Mondays and Wednesdays, 4:00 PM - 6:00 PM"
       max_participants := 25
       participants := ["alex@mergington.edu", "sarah@mergington.edu"] }),
    ("Basketball Club",
     { description := "Develop basketball skills and participate in friendly matches"
       schedule := "Tuesdays and Thursdays, 4:00 PM - 5:30 PM"
       max_participants := 15
       participants := ["james@mergington.edu"] }),
    ("Drama Club",
     { description := "Perform in school plays and develop acting skills"
       schedule := "Wednesdays, 3:30 PM - 5:30 PM"
       max_participants := 25
       participants := ["lily@mergington.edu", "ethan@mergington.edu"] }),
    ("Art Studio",
     { description := "Explore painting, drawing, and sculpture techniques"
       schedule := "Thursdays, 3:00 PM - 5:00 PM"
       max_participants := 18
       participants := ["ava@mergington.edu"] }),
    ("Debate Team",
     { description := "Develop critical thinking and public speaking through competitive debates"
       schedule := "Mondays, 3:30 PM - 5:00 PM"
       max_participants := 16
       participants := ["noah@mergington.edu", "mia@mergington.edu"] }),
    ("Science Olympiad",
     { description := "Compete in science competitions and conduct experiments"
       schedule := "Fridays, 3:00 PM - 5:00 PM"
       max_participants := 20
       participants := ["liam@mergington.edu"] }),
    ("Chess Club",
     { description := "Learn strategies and compete in chess tournaments"
       schedule := "Fridays, 3:30 PM - 5:00 PM"
       max_participants := 12
       participants := ["michael@mergington.edu", "daniel@mergington.edu"] }),
    ("Programming Class",
     { description := "Learn programming fundamentals and build software projects"
       schedule := "Tuesdays and Thursdays, 3:30 PM - 4:30 PM"
       max_participants := 20
       participants := ["emma@mergington.edu", "sophia@mergington.edu"] }),
    ("Gym Class",
     { description := "Physical education and sports activities"
       schedule := "Mondays, Wednesdays, Fridays, 2:00 PM - 3:00 PM"
       max_participants := 30
       participants := ["john@mergington.edu", "olivia@mergington.edu"] }) ]

/-- `GET /activities`: returns the full mapping as-is, no side effect. -/
def get_activities (r : Registry) : Registry := r

/-- `POST /activities/{activity_name}/signup`: check the activity
exists (else 404), check the email is not already registered (else
400), then append it to the participants list.  The updated registry is
returned alongside the response; on an exception the state is the
unchanged input, as in the Python where `raise` precedes the mutation. -/
def signup_for_activity (r : Registry) (activity_name email : String) :
    Registry × Response :=
  match r.lookup activity_name with
  | none => (r, .error ⟨404, "Activity not found"⟩)
  | some activity =>
      if email ∈ activity.participants then
        (r, .error ⟨400, "Student already signed up for this activity"⟩)
      else
        (r.update activity_name
           { activity with participants := activity.participants ++ [email] },
         .ok ("Signed up " ++ email ++ " for " ++ activity_name))

/-- `DELETE /activities/{activity_name}/unregister`: check the activity
exists (else 404), check the email is registered (else 400), then
remove its first occurrence from the participants list. -/
def unregister_from_activity (r : Registry) (activity_name email : String) :
    Registry × Response :=
  match r.lookup activity_name with
  | none => (r, .error ⟨404, "Activity not found"⟩)
  | some activity =>
      if email ∈ activity.participants then
        (r.update activity_name
           { activity with participants := removeFirst activity.participants email },
         .ok ("Unregistered " ++ email ++ " from " ++ activity_name))
      else
        (r, .error ⟨400, "Student is not signed up for this activity"⟩)

/-- A sequence of mutating requests against the registry. -/
inductive Op where
  | signup (activity_name email : String)
  | unregister (activity_name email : String)

/-- Apply one request, keeping only the registry state. -/
def applyOp (r : Registry) : Op → Registry
  | .signup a e => (signup_for_activity r a e).1
  | .unregister a e => (unregister_from_activity r a e).1

/-- Apply a sequence of requests left to right. -/
def applyOps (r : Registry) (ops : List Op) : Registry :=
  ops.foldl applyOp r

/-- Every record's participants list has no duplicates. -/
def participantsNodup (r : Registry) : Prop :=
  ∀ p ∈ r, p.2.participants.Nodup

instance (r : Registry) : Decidable (participantsNodup r) :=
  inferInstanceAs (Decidable (∀ p ∈ r, p.2.participants.Nodup))

/-! ### Helper lemmas about `lookup`, `update` and `removeFirst` -/

theorem lookup_mem {r : Registry} {a : String} {v : ActivityRecord}
    (h : Registry.lookup r a = some v) : (a, v) ∈ r := by
  induction r with
  | nil => simp [Registry.lookup] at h
  | cons p t ih =>
      obtain ⟨k, w⟩ := p
      by_cases hk : k = a
      · subst hk
        simp [Registry.lookup] at h
        subst h
        exact List.mem_cons_self _ _
      · simp [Registry.lookup, hk] at h
        exact List.mem_cons_of_mem _ (ih h)

theorem lookup_update_self {r : Registry} {a : String} {v₀ : ActivityRecord}
    (h : Registry.lookup r a = some v₀) (v : ActivityRecord) :
    Registry.lookup (Registry.update r a v) a = some v := by
  induction r with
  | nil => simp [Registry.lookup] at h
  | cons p t ih =>
      obtain ⟨k, w⟩ := p
      by_cases hk : k = a
      · subst hk
        simp [Registry.update, Registry.lookup]
      · simp [Registry.lookup, hk] at h
        simp [Registry.update, Registry.lookup, hk, ih h]

theorem lookup_update_ne (r : Registry) (a k : String) (v : ActivityRecord)
    (hk : k ≠ a) : Registry.lookup (Registry.update r a v) k = Registry.lookup r k := by
  induction r with
  | nil => simp [Registry.update]
  | cons p t ih =>
      obtain ⟨k', w⟩ := p
      by_cases hk' : k' = a
      · subst hk'
        have hne : k' ≠ k := fun h => hk h.symm
        simp [Registry.update, Registry.lookup, hne]
      · simp [Registry.update, hk', Registry.lookup, ih]

theorem update_update (r : Registry) (a : String) (v w : ActivityRecord) :
    Registry.update (Registry.update r a v) a w = Registry.update r a w := by
  induction r with
  | nil => simp [Registry.update]
  | cons p t ih =>
      obtain ⟨k, x⟩ := p
      by_cases hk : k = a
      · subst hk
        simp [Registry.update]
      · simp [Registry.update, hk, ih]

theorem update_lookup_id {r : Registry} {a : String} {v : ActivityRecord}
    (h : Registry.lookup r a = some v) : Registry.update r a v = r := by
  induction r with
  | nil => simp [Registry.update]
  | cons p t ih =>
      obtain ⟨k, w⟩ := p
      by_cases hk : k = a
      · subst hk
        simp [Registry.lookup] at h
        simp [Registry.update, h]
      · simp [Registry.lookup, hk] at h
        simp [Registry.update, hk, ih h]

theorem mem_update {r : Registry} {a : String} {v : ActivityRecord}
    {p : String × ActivityRecord} (h : p ∈ Registry.update r a v) :
    p.2 = v ∨ p ∈ r := by
  induction r with
  | nil => simp [Registry.update] at h
  | cons q t ih =>
      obtain ⟨k, w⟩ := q
      by_cases hk : k = a
      · subst hk
        simp [Registry.update] at h
        rcases h with h | h
        · left; rw [h]
        · right; exact List.mem_cons_of_mem _ h
      · simp [Registry.update, hk] at h
        rcases h with h | h
        · right; rw [h]; exact List.mem_cons_self _ _
        · rcases ih h with h' | h'
          · left; exact h'
          · right; exact List.mem_cons_of_mem _ h'

theorem update_keys (r : Registry) (a : String) (v : ActivityRecord) :
    List.map Prod.fst (Registry.update r a v) = List.map Prod.fst r := by
  induction r with
  | nil => simp [Registry.update]
  | cons p t ih =>
      obtain ⟨k, w⟩ := p
      by_cases hk : k = a
      · subst hk
        simp [Registry.update]
      · simp [Registry.update, hk, ih]

theorem removeFirst_sublist (l : List String) (e : String) :
    List.Sublist (removeFirst l e) l := by
  induction l with
  | nil => simp [removeFirst]
  | cons x t ih =>
      by_cases hx : x = e
      · simp [removeFirst, hx]
      · simp [removeFirst, hx]
        exact ih

theorem removeFirst_append_singleton {l : List String} {e : String}
    (h : e ∉ l) : removeFirst (l ++ [e]) e = l := by
  induction l with
  | nil => simp [removeFirst]
  | cons x t ih =>
      simp at h
      have hxe : x ≠ e := fun hh => h.1 hh.symm
      simp [removeFirst, hxe, ih h.2]

theorem removeFirst_spec {l : List String} {e : String} (h : e ∈ l) :
    ∃ l₁ l₂, l = l₁ ++ e :: l₂ ∧ e ∉ l₁ ∧ removeFirst l e = l₁ ++ l₂ := by
  induction l with
  | nil => simp at h
  | cons x t ih =>
      by_cases hx : x = e
      · subst hx
        exact ⟨[], t, rfl, by simp, by simp [removeFirst]⟩
      · have ht : e ∈ t := by
          rcases List.mem_cons.mp h with h' | h'
          · exact absurd h'.symm hx
          · exact h'
        obtain ⟨l₁, l₂, heq, hne, hrm⟩ := ih ht
        refine ⟨x :: l₁, l₂, by simp [heq], ?_, by simp [removeFirst, hx, hrm]⟩
        simp [hne]
        exact fun h' => hx h'.symm

/-! ### Claim theorems -/

/-- C1: for every registry state, existing activity `a`, and email `e` not
present in `a`'s participants, `signUp(a, e)` succeeds and its only effect
on `a`'s record is to append `e` at the end of the participants sequence,
keeping all previously present participants in their original order. -/
theorem C1_signup_appends (r : Registry) (a e : String) (rec : ActivityRecord)
    (hlook : Registry.lookup r a = some rec) (hmem : e ∉ rec.participants) :
    (signup_for_activity r a e).2 = .ok ("Signed up " ++ e ++ " for " ++ a) ∧
    Registry.lookup (signup_for_activity r a e).1 a =
      some { rec with participants := rec.participants ++ [e] } := by
  constructor
  · simp [signup_for_activity, hlook, hmem]
  · simp only [signup_for_activity, hlook]
    rw [if_neg hmem]
    exact lookup_update_self hlook _

theorem C1_signup_appends_witness :
    (signup_for_activity activities "Soccer Team" "new@x.edu").2 =
        .ok ("Signed up " ++ "new@x.edu" ++ " for " ++ "Soccer Team") ∧
    Registry.lookup (signup_for_activity activities "Soccer Team" "new@x.edu").1
        "Soccer Team" =
      some { description := "Join our varsity soccer team and compete in regional tournaments"
             schedule := "Mondays and Wednesdays, 4:00 PM - 6:00 PM"
             max_participants := 25
             participants := ["alex@mergington.edu", "sarah@mergington.edu", "new@x.edu"] } :=
  C1_signup_appends activities "Soccer Team" "new@x.edu"
    { description := "Join our varsity soccer team and compete in regional tournaments"
      schedule := "Mondays and Wednesdays, 4:00 PM - 6:00 PM"
      max_participants := 25
      participants := ["alex@mergington.edu", "sarah@mergington.edu"] }
    (by decide) (by decide)

/-- C2: the no-duplicate-participants invariant holds in the seed state
and is preserved by every signup and unregister, succeeding or failing. -/
theorem C2_nodup_invariant :
    participantsNodup activities ∧
    ∀ (r : Registry) (a e : String), participantsNodup r →
      participantsNodup (signup_for_activity r a e).1 ∧
      participantsNodup (unregister_from_activity r a e).1 := by
  constructor
  · decide
  · intro r a e hinv
    constructor
    · cases hlook : Registry.lookup r a with
      | none => simpa [signup_for_activity, hlook] using hinv
      | some rec =>
          by_cases hmem : e ∈ rec.participants
          · simpa [signup_for_activity, hlook, hmem] using hinv
          · simp only [signup_for_activity, hlook]
            rw [if_neg hmem]
            intro p hp
            rcases mem_update hp with h | h
            · have hrec := hinv _ (lookup_mem hlook)
              rw [h]
              simp [List.nodup_append, hrec, hmem]
            · exact hinv p h
    · cases hlook : Registry.lookup r a with
      | none => simpa [unregister_from_activity, hlook] using hinv
      | some rec =>
          by_cases hmem : e ∈ rec.participants
          · simp only [unregister_from_activity, hlook]
            rw [if_pos hmem]
            intro p hp
            rcases mem_update hp with h | h
            · have hrec := hinv _ (lookup_mem hlook)
              rw [h]
              exact List.Nodup.sublist (removeFirst_sublist _ _) hrec
            · exact hinv p h
          · simpa [unregister_from_activity, hlook, hmem] using hinv

theorem C2_nodup_invariant_witness :
    participantsNodup (signup_for_activity activities "Soccer Team" "new@x.edu").1 :=
  (C2_nodup_invariant.2 activities "Soccer Team" "new@x.edu" (by decide)).1

/-- C3: when the activity name is not a key of the registry, both signup
and unregister fail with the 404 Not-Found error, regardless of the email:
the existence check precedes any membership check, and the state is
returned unchanged. -/
theorem C3_notfound_when_missing (r : Registry) (a e : String)
    (h : Registry.lookup r a = none) :
    signup_for_activity r a e = (r, .error ⟨404, "Activity not found"⟩) ∧
    unregister_from_activity r a e = (r, .error ⟨404, "Activity not found"⟩) :=
  ⟨by simp [signup_for_activity, h], by simp [unregister_from_activity, h]⟩

theorem C3_notfound_when_missing_witness :
    signup_for_activity activities "NoSuchActivity" "e@x.edu" =
      (activities, .error ⟨404, "Activity not found"⟩) ∧
    unregister_from_activity activities "NoSuchActivity" "e@x.edu" =
      (activities, .error ⟨404, "Activity not found"⟩) :=
  C3_notfound_when_missing activities "NoSuchActivity" "e@x.edu" (by decide)

/-- C4: for an existing activity, signup fails with the 400 Conflict error
iff the email is already a participant, unregister fails with the 400
Conflict error iff the email is not a participant, and signing up twice
with the same arguments succeeds first and conflicts second. -/
theorem C4_conflict_iff (r : Registry) (a e : String) (rec : ActivityRecord)
    (hlook : Registry.lookup r a = some rec) :
    ((signup_for_activity r a e).2 =
        .error ⟨400, "Student already signed up for this activity"⟩ ↔
      e ∈ rec.participants) ∧
    ((unregister_from_activity r a e).2 =
        .error ⟨400, "Student is not signed up for this activity"⟩ ↔
      e ∉ rec.participants) ∧
    (e ∉ rec.participants →
      (signup_for_activity r a e).2 = .ok ("Signed up " ++ e ++ " for " ++ a) ∧
      (signup_for_activity (signup_for_activity r a e).1 a e).2 =
        .error ⟨400, "Student already signed up for this activity"⟩) := by
  refine ⟨?_, ?_, ?_⟩
  · by_cases hmem : e ∈ rec.participants <;>
      simp [signup_for_activity, hlook, hmem]
  · by_cases hmem : e ∈ rec.participants <;>
      simp [unregister_from_activity, hlook, hmem]
  · intro hmem
    have h1 : Registry.lookup (signup_for_activity r a e).1 a =
        some { rec with participants := rec.participants ++ [e] } := by
      simp only [signup_for_activity, hlook]
      rw [if_neg hmem]
      exact lookup_update_self hlook _
    refine ⟨by simp [signup_for_activity, hlook, hmem], ?_⟩
    generalize (signup_for_activity r a e).1 = r₁ at h1
    simp [signup_for_activity, h1]

theorem C4_conflict_iff_witness :
    ((signup_for_activity activities "Chess Club" "michael@mergington.edu").2 =
        .error ⟨400, "Student already signed up for this activity"⟩ ↔
      "michael@mergington.edu" ∈ ["michael@mergington.edu", "daniel@mergington.edu"]) ∧
    ((unregister_from_activity activities "Chess Club" "michael@mergington.edu").2 =
        .error ⟨400, "Student is not signed up for this activity"⟩ ↔
      "michael@mergington.edu" ∉ ["michael@mergington.edu", "daniel@mergington.edu"]) := by
  have h := C4_conflict_iff activities "Chess Club" "michael@mergington.edu"
    { description := "Learn strategies and compete in chess tournaments"
      schedule := "Fridays, 3:30 PM - 5:00 PM"
      max_participants := 12
      participants := ["michael@mergington.edu", "daniel@mergington.edu"] }
    (by decide)
  exact ⟨h.1, h.2.1⟩

/-- C5: atomicity of failure — whenever signup or unregister returns an
error, the returned registry state is exactly the input state. -/
theorem C5_atomic_failure (r : Registry) (a e : String) (err : HTTPError) :
    ((signup_for_activity r a e).2 = .error err →
      (signup_for_activity r a e).1 = r) ∧
    ((unregister_from_activity r a e).2 = .error err →
      (unregister_from_activity r a e).1 = r) := by
  cases hlook : Registry.lookup r a with
  | none => simp [signup_for_activity, unregister_from_activity, hlook]
  | some rec =>
      by_cases hmem : e ∈ rec.participants <;>
        simp [signup_for_activity, unregister_from_activity, hlook, hmem]

theorem C5_atomic_failure_witness :
    (signup_for_activity activities "NoSuchActivity" "e@x.edu").1 = activities :=
  (C5_atomic_failure activities "NoSuchActivity" "e@x.edu"
      ⟨404, "Activity not found"⟩).1 (by decide)

/-- C6: signup never enforces capacity — for an existing activity and a
fresh email it succeeds even when the participants list is already at or
over `max_participants`. -/
theorem C6_signup_ignores_capacity (r : Registry) (a e : String)
    (rec : ActivityRecord) (hlook : Registry.lookup r a = some rec)
    (hmem : e ∉ rec.participants)
    (hfull : rec.max_participants ≤ rec.participants.length) :
    (signup_for_activity r a e).2 = .ok ("Signed up " ++ e ++ " for " ++ a) := by
  simp [signup_for_activity, hlook, hmem]

theorem C6_signup_ignores_capacity_witness :
    (signup_for_activity
        [("Chess Club",
          { description := "Learn strategies and compete in chess tournaments"
            schedule := "Fridays, 3:30 PM - 5:00 PM"
            max_participants := 2
            participants := ["a@mergington.edu", "b@mergington.edu"] })]
        "Chess Club" "c@mergington.edu").2 =
      .ok ("Signed up " ++ "c@mergington.edu" ++ " for " ++ "Chess Club") :=
  C6_signup_ignores_capacity
    [("Chess Club",
      { description := "Learn strategies and compete in chess tournaments"
        schedule := "Fridays, 3:30 PM - 5:00 PM"
        max_participants := 2
        participants := ["a@mergington.edu", "b@mergington.edu"] })]
    "Chess Club" "c@mergington.edu"
    { description := "Learn strategies and compete in chess tournaments"
      schedule := "Fridays, 3:30 PM - 5:00 PM"
      max_participants := 2
      participants := ["a@mergington.edu", "b@mergington.edu"] }
    (by decide) (by decide) (by decide)

/-- C7: for an existing activity and a registered email, unregister
succeeds and the new participants list is the original with exactly the
first occurrence of the email deleted, all other elements kept in order. -/
theorem C7_unregister_removes_first (r : Registry) (a e : String)
    (rec : ActivityRecord) (hlook : Registry.lookup r a = some rec)
    (hmem : e ∈ rec.participants) :
    (unregister_from_activity r a e).2 =
      .ok ("Unregistered " ++ e ++ " from " ++ a) ∧
    ∃ l₁ l₂, rec.participants = l₁ ++ e :: l₂ ∧ e ∉ l₁ ∧
      Registry.lookup (unregister_from_activity r a e).1 a =
        some { rec with participants := l₁ ++ l₂ } := by
  obtain ⟨l₁, l₂, heq, hne, hrm⟩ := removeFirst_spec hmem
  refine ⟨by simp [unregister_from_activity, hlook, hmem], l₁, l₂, heq, hne, ?_⟩
  simp only [unregister_from_activity, hlook]
  rw [if_pos hmem, hrm]
  exact lookup_update_self hlook _

theorem C7_unregister_removes_first_witness :
    (unregister_from_activity activities "Soccer Team" "alex@mergington.edu").2 =
      .ok ("Unregistered " ++ "alex@mergington.edu" ++ " from " ++ "Soccer Team") ∧
    ∃ l₁ l₂,
      ["alex@mergington.edu", "sarah@mergington.edu"] =
          l₁ ++ "alex@mergington.edu" :: l₂ ∧
      "alex@mergington.edu" ∉ l₁ ∧
      Registry.lookup
          (unregister_from_activity activities "Soccer Team"
            "alex@mergington.edu").1 "Soccer Team" =
        some { description := "Join our varsity soccer team and compete in regional tournaments"
               schedule := "Mondays and Wednesdays, 4:00 PM - 6:00 PM"
               max_participants := 25
               participants := l₁ ++ l₂ } :=
  C7_unregister_removes_first activities "Soccer Team" "alex@mergington.edu"
    { description := "Join our varsity soccer team and compete in regional tournaments"
      schedule := "Mondays and Wednesdays, 4:00 PM - 6:00 PM"
      max_participants := 25
      participants := ["alex@mergington.edu", "sarah@mergington.edu"] }
    (by decide) (by decide)

theorem applyOp_keys (r : Registry) (op : Op) :
    List.map Prod.fst (applyOp r op) = List.map Prod.fst r := by
  cases op with
  | signup a e =>
      cases hlook : Registry.lookup r a with
      | none => simp [applyOp, signup_for_activity, hlook]
      | some rec =>
          by_cases hmem : e ∈ rec.participants <;>
            simp [applyOp, signup_for_activity, hlook, hmem, update_keys]
  | unregister a e =>
      cases hlook : Registry.lookup r a with
      | none => simp [applyOp, unregister_from_activity, hlook]
      | some rec =>
          by_cases hmem : e ∈ rec.participants <;>
            simp [applyOp, unregister_from_activity, hlook, hmem, update_keys]

theorem applyOps_keys (r : Registry) (ops : List Op) :
    List.map Prod.fst (applyOps r ops) = List.map Prod.fst r := by
  induction ops generalizing r with
  | nil => rfl
  | cons op t ih =>
      have h : applyOps r (op :: t) = applyOps (applyOp r op) t := rfl
      rw [h, ih, applyOp_keys]

/-- C8: frame condition — signup and unregister leave every other
activity's record untouched, never change the target's description,
schedule or capacity, and any sequence of such calls preserves the list
of activity names (hence the length of `listActivities()`). -/
theorem C8_frame_condition :
    (∀ (r : Registry) (a e k : String), k ≠ a →
        Registry.lookup (signup_for_activity r a e).1 k = Registry.lookup r k ∧
        Registry.lookup (unregister_from_activity r a e).1 k =
          Registry.lookup r k) ∧
    (∀ (r : Registry) (a e : String) (rec : ActivityRecord),
        Registry.lookup r a = some rec →
        (∃ rec', Registry.lookup (signup_for_activity r a e).1 a = some rec' ∧
            rec'.description = rec.description ∧
            rec'.schedule = rec.schedule ∧
            rec'.max_participants = rec.max_participants) ∧
        (∃ rec', Registry.lookup (unregister_from_activity r a e).1 a =
              some rec' ∧
            rec'.description = rec.description ∧
            rec'.schedule = rec.schedule ∧
            rec'.max_participants = rec.max_participants)) ∧
    (∀ (r : Registry) (ops : List Op),
        List.map Prod.fst (applyOps r ops) = List.map Prod.fst r ∧
        (get_activities (applyOps r ops)).length = (get_activities r).length) := by
  refine ⟨?_, ?_, ?_⟩
  · intro r a e k hk
    constructor
    · cases hlook : Registry.lookup r a with
      | none => simp [signup_for_activity, hlook]
      | some rec =>
          by_cases hmem : e ∈ rec.participants <;>
            simp [signup_for_activity, hlook, hmem, lookup_update_ne r a k _ hk]
    · cases hlook : Registry.lookup r a with
      | none => simp [unregister_from_activity, hlook]
      | some rec =>
          by_cases hmem : e ∈ rec.participants <;>
            simp [unregister_from_activity, hlook, hmem,
              lookup_update_ne r a k _ hk]
  · intro r a e rec hlook
    constructor
    · by_cases hmem : e ∈ rec.participants
      · exact ⟨rec, by simp [signup_for_activity, hlook, hmem], rfl, rfl, rfl⟩
      · refine ⟨{ rec with participants := rec.participants ++ [e] }, ?_, rfl, rfl, rfl⟩
        simp only [signup_for_activity, hlook]
        rw [if_neg hmem]
        exact lookup_update_self hlook _
    · by_cases hmem : e ∈ rec.participants
      · refine ⟨{ rec with participants := removeFirst rec.participants e }, ?_,
          rfl, rfl, rfl⟩
        simp only [unregister_from_activity, hlook]
        rw [if_pos hmem]
        exact lookup_update_self hlook _
      · exact ⟨rec, by simp [unregister_from_activity, hlook, hmem], rfl, rfl, rfl⟩
  · intro r ops
    refine ⟨applyOps_keys r ops, ?_⟩
    have h := congrArg List.length (applyOps_keys r ops)
    simpa [get_activities] using h

theorem C8_frame_condition_witness :
    Registry.lookup
        (signup_for_activity activities "Soccer Team" "new@x.edu").1
        "Chess Club" =
      Registry.lookup activities "Chess Club" ∧
    (get_activities (applyOps activities
        [.signup "Soccer Team" "new@x.edu",
         .unregister "Chess Club" "michael@mergington.edu"])).length =
      (get_activities activities).length :=
  ⟨(C8_frame_condition.1 activities "Soccer Team" "new@x.edu" "Chess Club"
      (by decide)).1,
   (C8_frame_condition.2.2 activities
      [.signup "Soccer Team" "new@x.edu",
       .unregister "Chess Club" "michael@mergington.edu"]).2⟩

/-- C9: round trip — for an existing activity and a fresh email, signup
followed by unregister with the same arguments restores the registry
exactly. -/
theorem C9_signup_unregister_roundtrip (r : Registry) (a e : String)
    (rec : ActivityRecord) (hlook : Registry.lookup r a = some rec)
    (hmem : e ∉ rec.participants) :
    (unregister_from_activity (signup_for_activity r a e).1 a e).1 = r := by
  have h1 : (signup_for_activity r a e).1 =
      Registry.update r a { rec with participants := rec.participants ++ [e] } := by
    simp only [signup_for_activity, hlook]
    rw [if_neg hmem]
  have h2 : Registry.lookup (signup_for_activity r a e).1 a =
      some { rec with participants := rec.participants ++ [e] } := by
    rw [h1]
    exact lookup_update_self hlook _
  have hmem2 : e ∈ ({ rec with participants := rec.participants ++ [e] } :
      ActivityRecord).participants := by simp
  simp only [unregister_from_activity, h2]
  rw [if_pos hmem2]
  simp only [removeFirst_append_singleton hmem]
  rw [h1, update_update]
  exact update_lookup_id hlook

theorem C9_signup_unregister_roundtrip_witness :
    (unregister_from_activity
        (signup_for_activity activities "Soccer Team" "new@x.edu").1
        "Soccer Team" "new@x.edu").1 = activities :=
  C9_signup_unregister_roundtrip activities "Soccer Team" "new@x.edu"
    { description := "Join our varsity soccer team and compete in regional tournaments"
      schedule := "Mondays and Wednesdays, 4:00 PM - 6:00 PM"
      max_participants := 25
      participants := ["alex@mergington.edu", "sarah@mergington.edu"] }
    (by decide) (by decide)

/-- C10: determinism — each operation is a pure function of the registry
state and its arguments: equal states and equal inputs give equal
outcomes and equal final states. -/
theorem C10_operations_deterministic (r₁ r₂ : Registry) (a₁ a₂ e₁ e₂ : String)
    (hr : r₁ = r₂) (ha : a₁ = a₂) (he : e₁ = e₂) :
    get_activities r₁ = get_activities r₂ ∧
    signup_for_activity r₁ a₁ e₁ = signup_for_activity r₂ a₂ e₂ ∧
    unregister_from_activity r₁ a₁ e₁ = unregister_from_activity r₂ a₂ e₂ := by
  subst hr
  subst ha
  subst he
  exact ⟨rfl, rfl, rfl⟩

theorem C10_operations_deterministic_witness :
    signup_for_activity activities "Soccer Team" "new@x.edu" =
      signup_for_activity activities "Soccer Team" "new@x.edu" :=
  (C10_operations_deterministic activities activities "Soccer Team" "Soccer Team"
      "new@x.edu" "new@x.edu" rfl rfl rfl).2.1

end Mergington
